import Mathlib

/-!
Shallow embedding of `xtask/src/build_ebpf.rs` (bpfd build orchestrator).

The Rust file shells out to external processes (`cargo metadata`, `make`,
`clang`, `cargo +nightly build`).  We model the external world as an `Env`
record, each function as a pure computation returning the list of external
process invocations it performed together with an `Outcome` (normal return,
propagated recoverable error, or process abort / panic).  Paths are modelled
as strings joined with `/`, matching the `PathBuf::push` calls in the source.
-/

namespace BuildEbpf

/-- `enum Architecture { BpfEl, BpfEb }` from the source. -/
inductive Architecture where
  | BpfEl : Architecture
  | BpfEb : Architecture
deriving DecidableEq, Repr

/-- `impl FromStr for Architecture`: only the two canonical BPF target
triples parse; anything else yields `Err("invalid target")`. -/
def Architecture.from_str (s : String) : Except String Architecture :=
  if s = "bpfel-unknown-none" then Except.ok Architecture.BpfEl
  else if s = "bpfeb-unknown-none" then Except.ok Architecture.BpfEb
  else Except.error "invalid target"

/-- `impl Display for Architecture`: canonical string form of each target. -/
def Architecture.toTargetString : Architecture → String
  | Architecture.BpfEl => "bpfel-unknown-none"
  | Architecture.BpfEb => "bpfeb-unknown-none"

/-- `struct Options` (the clap CLI record). -/
structure Options where
  target : Architecture
  release : Bool
  compile_rust_ebpf : Bool
  libbpf_dir : String
deriving DecidableEq, Repr

/-- Outcome of running one of the build functions: normal return,
a propagated recoverable error (`anyhow::Result::Err`), or a process
abort (`panic!` / `assert!` / `expect`). -/
inductive Outcome where
  | ok : Outcome
  | err (msg : String) : Outcome
  | panicked (msg : String) : Outcome
deriving DecidableEq, Repr

/-- One external process invocation actually executed (spawn succeeded). -/
inductive Invocation where
  | cargoMetadata : Invocation
  | cargoBuild (dir : String) (args : List String) : Invocation
  | makeInstall (dir : String) (args : List String) : Invocation
  | clang (exe : String) (args : List String) : Invocation
deriving DecidableEq, Repr

/-- The external world: results the environment hands back to each
external interaction the source performs. -/
structure Env where
  /-- workspace root as the `cargo metadata` query reports it -/
  workspaceRoot : String
  /-- `std::env::consts::ARCH` -/
  hostArch : String
  /-- `env::var("CLANG")` -/
  clangEnvVar : Option String
  /-- `fs::create_dir_all` result: `none` = Ok, `some msg` = Err -/
  mkdirErr : Option String
  /-- `make … install_headers` status: `none` = spawn error,
      `some b` = exited with success `b` -/
  makeStatus : Option Bool
  /-- whether `fs::read_dir(&src)` succeeds -/
  readDirOk : Bool
  /-- file names of the entries of the `.c` source directory -/
  dirEntries : List String
  /-- clang result keyed by source path: `none` = spawn error,
      `some (success, stdout, stderr)` otherwise -/
  clangOutput : String → Option (Bool × String × String)
  /-- `cargo +nightly build` status: `none` = spawn error,
      `some b` = exited with success `b` -/
  rustStatus : Option Bool

/-! ### Path helpers (Rust `Path::extension` / `Path::set_extension`) -/

/-- Split a file name into `(file_stem, extension)` with Rust's
`Path` semantics: the extension is the part after the last `.`,
unless there is no `.` or the only `.` starts the name. -/
def fileStemExt (name : String) : String × Option String :=
  let rev := name.toList.reverse
  let extRev := rev.takeWhile (fun c => c ≠ '.')
  match rev.dropWhile (fun c => c ≠ '.') with
  | [] => (name, none)
  | _ :: stemRev =>
      if stemRev = [] then (name, none)
      else (String.mk stemRev.reverse, some (String.mk extRev.reverse))

/-- Rust `Path::extension` on a file name. -/
def fileExt (name : String) : Option String := (fileStemExt name).2

/-- Rust `PathBuf::set_extension(ext)` (with a nonempty `ext`) applied to
a file name: the stem keeps everything before the last real extension. -/
def setExtension (name ext : String) : String :=
  (fileStemExt name).1 ++ "." ++ ext

/-! ### The build functions -/

/-- Clang executable resolution in `compile_with_clang`:
the `CLANG` environment variable if set, else `/usr/bin/clang`. -/
def clangExe (env : Env) : String :=
  match env.clangEnvVar with
  | some val => val
  | none => "/usr/bin/clang"

/-- Host-architecture to BPF header macro-suffix translation in
`compile_with_clang`. -/
def archMacro (arch : String) : String :=
  if arch = "x86_64" then "x86"
  else if arch = "aarch64" then "arm64"
  else arch

/-- The argument list `compile_with_clang` hands to clang. -/
def clangArgs (env : Env) (src out include_path : String) : List String :=
  ["-I" ++ include_path, "-g", "-O2", "-target", "bpf", "-c",
   "-D__TARGET_ARCH_" ++ archMacro env.hostArch, src, "-o", out]

/-- `compile_with_clang`: spawn clang; a spawn failure is a propagated
error (`context("Failed to execute clang")?`), a non-zero exit is a
propagated error carrying the captured stdout/stderr (`bail!`). -/
def compile_with_clang (env : Env) (src out include_path : String) :
    List Invocation × Outcome :=
  let exe := clangExe env
  let args := clangArgs env src out include_path
  match env.clangOutput src with
  | none => ([], Outcome.err "Failed to execute clang")
  | some (success, out_, err_) =>
      if success then ([Invocation.clang exe args], Outcome.ok)
      else ([Invocation.clang exe args],
        Outcome.err ("Failed to compile eBPF programs\n stdout=\n "
          ++ out_ ++ "\n stderr=\n " ++ err_ ++ "\n"))

/-- `get_libbpf_headers`: `fs::create_dir_all(dir)?` (a *propagated*
error on failure), then `make … install_headers`; spawn failure and a
non-zero exit both panic (`expect` / `assert!`). -/
def get_libbpf_headers (env : Env) (libbpf_dir include_path : String) :
    List Invocation × Outcome :=
  match env.mkdirErr with
  | some msg => ([], Outcome.err msg)
  | none =>
      match env.makeStatus with
      | none => ([], Outcome.panicked "failed to build get libbpf headers")
      | some success =>
          let inv := Invocation.makeInstall (libbpf_dir ++ "/src")
            ["INCLUDEDIR=" ++ include_path, "install_headers"]
          if success then ([inv], Outcome.ok)
          else ([inv], Outcome.panicked "assertion failed: status.success()")

/-- `build_rust_ebpf`: `cargo +nightly build … --release --target=<triple>
-Z build-std=core` in `<root>/bpfd-ebpf`; spawn failure and non-zero exit
both panic (`expect` / `assert!`). -/
def build_rust_ebpf (env : Env) (target : Architecture) :
    List Invocation × Outcome :=
  let dir := env.workspaceRoot ++ "/bpfd-ebpf"
  let args := ["+nightly", "build", "--verbose", "--release",
    "--target=" ++ target.toTargetString, "-Z", "build-std=core"]
  match env.rustStatus with
  | none => ([], Outcome.panicked "failed to build bpf program")
  | some success =>
      if success then ([Invocation.cargoBuild dir args], Outcome.ok)
      else ([Invocation.cargoBuild dir args],
        Outcome.panicked "assertion failed: status.success()")

/-- The per-entry compilation loop of `build_c_ebpf`: entries whose
extension is exactly `c` are compiled (output name: extension replaced by
`o`, inside `outPath`); a compiler error short-circuits. -/
def compileLoop (env : Env) (srcDir outPath includePath : String) :
    List String → List Invocation × Outcome
  | [] => ([], Outcome.ok)
  | name :: rest =>
      match fileExt name with
      | some ext =>
          if ext = "c" then
            let out := outPath ++ "/" ++ setExtension name "o"
            let p := srcDir ++ "/" ++ name
            let (tr, o) := compile_with_clang env p out includePath
            match o with
            | Outcome.ok =>
                let (tr2, o2) := compileLoop env srcDir outPath includePath rest
                (tr ++ tr2, o2)
            | o => (tr, o)
          else compileLoop env srcDir outPath includePath rest
      | none => compileLoop env srcDir outPath includePath rest

/-- The source directory `build_c_ebpf` scans: `<root>/bpfd-ebpf/src/bpf`. -/
def cSrcDir (env : Env) : String := env.workspaceRoot ++ "/bpfd-ebpf/src/bpf"

/-- The object output directory: `<root>/target/<triple>/release`
(the `release` component is pushed unconditionally). -/
def outPathOf (env : Env) (target : Architecture) : String :=
  env.workspaceRoot ++ "/target/" ++ target.toTargetString ++ "/release"

/-- The materialized header directory: `<outPath>/include`. -/
def includePathOf (env : Env) (target : Architecture) : String :=
  outPathOf env target ++ "/include"

/-- `build_c_ebpf`: materialize headers (propagating its outcome on
failure), `fs::read_dir(&src).unwrap()`, then the per-entry loop. -/
def build_c_ebpf (env : Env) (target : Architecture) (libbpf_dir : String) :
    List Invocation × Outcome :=
  let src := cSrcDir env
  let out_path := outPathOf env target
  let include_path := includePathOf env target
  let (tr, o) := get_libbpf_headers env libbpf_dir include_path
  match o with
  | Outcome.ok =>
      if env.readDirOk then
        let (tr2, o2) := compileLoop env src out_path include_path env.dirEntries
        (tr ++ tr2, o2)
      else (tr, Outcome.panicked "read_dir unwrap failed")
  | o => (tr, o)

/-- `build_ebpf`: optionally run the Rust eBPF build first (its failure
short-circuits via `?` / panic propagation), then always run `build_c_ebpf`. -/
def build_ebpf (env : Env) (opts : Options) : List Invocation × Outcome :=
  if opts.compile_rust_ebpf then
    let (tr, o) := build_rust_ebpf env opts.target
    match o with
    | Outcome.ok =>
        let (tr2, o2) := build_c_ebpf env opts.target opts.libbpf_dir
        (tr ++ tr2, o2)
    | o => (tr, o)
  else build_c_ebpf env opts.target opts.libbpf_dir

/-! ### The lazily cached workspace root (`lazy_static! WORKSPACE_ROOT`) -/

/-- State of the process-wide `WORKSPACE_ROOT` cell: the cached value (if
initialized) and how many times the `cargo metadata` query actually ran. -/
structure LocatorState where
  cache : Option String
  metadataCalls : Nat
deriving DecidableEq, Repr

/-- State at process start: uninitialized, zero metadata queries. -/
def LocatorState.init : LocatorState := ⟨none, 0⟩

/-- A successful run of `workspace_root()`: spawn `cargo metadata`, parse
its JSON stdout and extract the `workspace_root` field — the extracted
value is what the environment reports. -/
def workspace_root_query (env : Env) : String := env.workspaceRoot

/-- One dereference of `WORKSPACE_ROOT` under lazy_static semantics:
return the cached value if initialized, otherwise run
`workspace_root()` once and cache its result. -/
def workspaceRootAccess (env : Env) (s : LocatorState) :
    String × LocatorState :=
  match s.cache with
  | some v => (v, s)
  | none =>
      (workspace_root_query env,
        { cache := some (workspace_root_query env),
          metadataCalls := s.metadataCalls + 1 })

/-- `n` successive dereferences of `WORKSPACE_ROOT` within one process
lifetime, starting from the uninitialized state; returns the values seen
and the final cell state. -/
def workspaceRootAccesses (env : Env) : Nat → List String × LocatorState
  | 0 => ([], LocatorState.init)
  | n + 1 =>
      let (vs, s) := workspaceRootAccesses env n
      let (v, s2) := workspaceRootAccess env s
      (vs ++ [v], s2)

/-! ### Small observers -/

/-- Is this invocation a C compiler (clang) invocation? -/
def Invocation.isClang : Invocation → Bool
  | Invocation.clang _ _ => true
  | _ => false

/-- Is this invocation a `cargo build` (Rust eBPF builder) invocation? -/
def Invocation.isCargoBuild : Invocation → Bool
  | Invocation.cargoBuild _ _ => true
  | _ => false

/-- Did this outcome abort the process (panic), as opposed to a normal
return or a propagated recoverable error? -/
def Outcome.isPanic : Outcome → Bool
  | Outcome.panicked _ => true
  | _ => false

end BuildEbpf

/-! ## Helper lemmas -/

namespace BuildEbpf

lemma glh_mkdir_fail (env : Env) (l ip msg : String)
    (h : env.mkdirErr = some msg) :
    get_libbpf_headers env l ip = ([], Outcome.err msg) := by
  simp [get_libbpf_headers, h]

lemma glh_spawn_fail (env : Env) (l ip : String)
    (h1 : env.mkdirErr = none) (h2 : env.makeStatus = none) :
    get_libbpf_headers env l ip =
      ([], Outcome.panicked "failed to build get libbpf headers") := by
  simp [get_libbpf_headers, h1, h2]

lemma glh_exit_fail (env : Env) (l ip : String)
    (h1 : env.mkdirErr = none) (h2 : env.makeStatus = some false) :
    get_libbpf_headers env l ip =
      ([Invocation.makeInstall (l ++ "/src")
          ["INCLUDEDIR=" ++ ip, "install_headers"]],
       Outcome.panicked "assertion failed: status.success()") := by
  simp [get_libbpf_headers, h1, h2]

lemma glh_ok (env : Env) (l ip : String)
    (h1 : env.mkdirErr = none) (h2 : env.makeStatus = some true) :
    get_libbpf_headers env l ip =
      ([Invocation.makeInstall (l ++ "/src")
          ["INCLUDEDIR=" ++ ip, "install_headers"]],
       Outcome.ok) := by
  simp [get_libbpf_headers, h1, h2]

lemma glh_trace_make (env : Env) (l ip : String) :
    ∀ i ∈ (get_libbpf_headers env l ip).1,
      ∃ d a, i = Invocation.makeInstall d a := by
  intro i hi
  unfold get_libbpf_headers at hi
  rcases h : env.mkdirErr with _ | msg <;> rw [h] at hi
  · rcases h2 : env.makeStatus with _ | succ <;> rw [h2] at hi
    · simp at hi
    · cases succ <;> simp at hi <;> exact ⟨_, _, hi⟩
  · simp at hi

end BuildEbpf

namespace BuildEbpf

lemma cwc_spawn_fail (env : Env) (s o ip : String)
    (h : env.clangOutput s = none) :
    compile_with_clang env s o ip = ([], Outcome.err "Failed to execute clang") := by
  simp [compile_with_clang, h]

lemma cwc_ok (env : Env) (s o ip so se : String)
    (h : env.clangOutput s = some (true, so, se)) :
    compile_with_clang env s o ip =
      ([Invocation.clang (clangExe env) (clangArgs env s o ip)], Outcome.ok) := by
  simp [compile_with_clang, h]

lemma cwc_exit_fail (env : Env) (s o ip so se : String)
    (h : env.clangOutput s = some (false, so, se)) :
    compile_with_clang env s o ip =
      ([Invocation.clang (clangExe env) (clangArgs env s o ip)],
       Outcome.err ("Failed to compile eBPF programs\n stdout=\n "
         ++ so ++ "\n stderr=\n " ++ se ++ "\n")) := by
  simp [compile_with_clang, h]

lemma cwc_trace_clang (env : Env) (s o ip : String) :
    ∀ i ∈ (compile_with_clang env s o ip).1,
      i = Invocation.clang (clangExe env) (clangArgs env s o ip) := by
  intro i hi
  unfold compile_with_clang at hi
  rcases h : env.clangOutput s with _ | ⟨succ, so, se⟩ <;> rw [h] at hi
  · simp at hi
  · cases succ <;> simp at hi <;> exact hi

lemma compileLoop_nil (env : Env) (sd op ip : String) :
    compileLoop env sd op ip [] = ([], Outcome.ok) := rfl

lemma compileLoop_cons_none (env : Env) (sd op ip name : String)
    (rest : List String) (h : fileExt name = none) :
    compileLoop env sd op ip (name :: rest) = compileLoop env sd op ip rest := by
  simp [compileLoop, h]

lemma compileLoop_cons_notc (env : Env) (sd op ip name ext : String)
    (rest : List String) (h : fileExt name = some ext) (hc : ext ≠ "c") :
    compileLoop env sd op ip (name :: rest) = compileLoop env sd op ip rest := by
  simp [compileLoop, h, hc]

lemma compileLoop_cons_c_ok (env : Env) (sd op ip name : String)
    (rest : List String) (h : fileExt name = some "c")
    (hc : (compile_with_clang env (sd ++ "/" ++ name)
      (op ++ "/" ++ setExtension name "o") ip).2 = Outcome.ok) :
    compileLoop env sd op ip (name :: rest) =
      ((compile_with_clang env (sd ++ "/" ++ name)
          (op ++ "/" ++ setExtension name "o") ip).1
        ++ (compileLoop env sd op ip rest).1,
       (compileLoop env sd op ip rest).2) := by
  rcases he : compile_with_clang env (sd ++ "/" ++ name)
      (op ++ "/" ++ setExtension name "o") ip with ⟨tr, o⟩
  rw [he] at hc
  simp only at hc
  subst hc
  simp [compileLoop, h, he]

lemma compileLoop_cons_c_fail (env : Env) (sd op ip name : String)
    (rest : List String) (h : fileExt name = some "c")
    (hc : (compile_with_clang env (sd ++ "/" ++ name)
      (op ++ "/" ++ setExtension name "o") ip).2 ≠ Outcome.ok) :
    compileLoop env sd op ip (name :: rest) =
      compile_with_clang env (sd ++ "/" ++ name)
        (op ++ "/" ++ setExtension name "o") ip := by
  rcases he : compile_with_clang env (sd ++ "/" ++ name)
      (op ++ "/" ++ setExtension name "o") ip with ⟨tr, o⟩
  rw [he] at hc
  simp only at hc
  cases o with
  | ok => exact absurd rfl hc
  | err m => simp [compileLoop, h, he]
  | panicked m => simp [compileLoop, h, he]

lemma compileLoop_trace_clang (env : Env) (sd op ip : String) :
    ∀ names, ∀ i ∈ (compileLoop env sd op ip names).1,
      ∃ s o, i = Invocation.clang (clangExe env) (clangArgs env s o ip) := by
  intro names
  induction names with
  | nil => intro i hi; simp [compileLoop_nil] at hi
  | cons name rest ih =>
      intro i hi
      rcases h : fileExt name with _ | ext
      · rw [compileLoop_cons_none env sd op ip name rest h] at hi
        exact ih i hi
      · by_cases hc : ext = "c"
        · subst hc
          by_cases ho : (compile_with_clang env (sd ++ "/" ++ name)
              (op ++ "/" ++ setExtension name "o") ip).2 = Outcome.ok
          · rw [compileLoop_cons_c_ok env sd op ip name rest h ho] at hi
            simp only [List.mem_append] at hi
            rcases hi with hi | hi
            · exact ⟨_, _, cwc_trace_clang env _ _ ip i hi⟩
            · exact ih i hi
          · rw [compileLoop_cons_c_fail env sd op ip name rest h ho] at hi
            exact ⟨_, _, cwc_trace_clang env _ _ ip i hi⟩
        · rw [compileLoop_cons_notc env sd op ip name ext rest h hc] at hi
          exact ih i hi

end BuildEbpf

namespace BuildEbpf

lemma build_c_headers_fail (env : Env) (t : Architecture) (l : String)
    (h : (get_libbpf_headers env l (includePathOf env t)).2 ≠ Outcome.ok) :
    build_c_ebpf env t l = get_libbpf_headers env l (includePathOf env t) := by
  rcases he : get_libbpf_headers env l (includePathOf env t) with ⟨tr, o⟩
  rw [he] at h
  simp only at h
  cases o with
  | ok => exact absurd rfl h
  | err m => simp [build_c_ebpf, he]
  | panicked m => simp [build_c_ebpf, he]

lemma build_c_headers_ok (env : Env) (t : Architecture) (l : String)
    (h : (get_libbpf_headers env l (includePathOf env t)).2 = Outcome.ok)
    (hr : env.readDirOk = true) :
    build_c_ebpf env t l =
      ((get_libbpf_headers env l (includePathOf env t)).1
        ++ (compileLoop env (cSrcDir env) (outPathOf env t)
              (includePathOf env t) env.dirEntries).1,
       (compileLoop env (cSrcDir env) (outPathOf env t)
          (includePathOf env t) env.dirEntries).2) := by
  rcases he : get_libbpf_headers env l (includePathOf env t) with ⟨tr, o⟩
  rw [he] at h
  simp only at h
  subst h
  simp [build_c_ebpf, he, hr]

lemma build_c_readdir_fail (env : Env) (t : Architecture) (l : String)
    (h : (get_libbpf_headers env l (includePathOf env t)).2 = Outcome.ok)
    (hr : env.readDirOk = false) :
    build_c_ebpf env t l =
      ((get_libbpf_headers env l (includePathOf env t)).1,
       Outcome.panicked "read_dir unwrap failed") := by
  rcases he : get_libbpf_headers env l (includePathOf env t) with ⟨tr, o⟩
  rw [he] at h
  simp only at h
  subst h
  simp [build_c_ebpf, he, hr]

lemma build_c_trace_mem (env : Env) (t : Architecture) (l : String) :
    ∀ i ∈ (build_c_ebpf env t l).1,
      (∃ d a, i = Invocation.makeInstall d a) ∨
      (∃ s o, i = Invocation.clang (clangExe env)
        (clangArgs env s o (includePathOf env t))) := by
  intro i hi
  by_cases h : (get_libbpf_headers env l (includePathOf env t)).2 = Outcome.ok
  · cases hr : env.readDirOk with
    | true =>
        rw [build_c_headers_ok env t l h hr] at hi
        simp only [List.mem_append] at hi
        rcases hi with hi | hi
        · exact Or.inl (glh_trace_make env l (includePathOf env t) i hi)
        · exact Or.inr (compileLoop_trace_clang env _ _ _ env.dirEntries i hi)
    | false =>
        rw [build_c_readdir_fail env t l h hr] at hi
        exact Or.inl (glh_trace_make env l (includePathOf env t) i hi)
  · rw [build_c_headers_fail env t l h] at hi
    exact Or.inl (glh_trace_make env l (includePathOf env t) i hi)

lemma build_ebpf_no_rust (env : Env) (opts : Options)
    (h : opts.compile_rust_ebpf = false) :
    build_ebpf env opts = build_c_ebpf env opts.target opts.libbpf_dir := by
  simp [build_ebpf, h]

lemma build_ebpf_rust_fail (env : Env) (opts : Options)
    (h : opts.compile_rust_ebpf = true)
    (h2 : (build_rust_ebpf env opts.target).2 ≠ Outcome.ok) :
    build_ebpf env opts = build_rust_ebpf env opts.target := by
  rcases he : build_rust_ebpf env opts.target with ⟨tr, o⟩
  rw [he] at h2
  simp only at h2
  cases o with
  | ok => exact absurd rfl h2
  | err m => simp [build_ebpf, h, he]
  | panicked m => simp [build_ebpf, h, he]

lemma build_ebpf_rust_ok (env : Env) (opts : Options)
    (h : opts.compile_rust_ebpf = true)
    (h2 : (build_rust_ebpf env opts.target).2 = Outcome.ok) :
    build_ebpf env opts =
      ((build_rust_ebpf env opts.target).1
        ++ (build_c_ebpf env opts.target opts.libbpf_dir).1,
       (build_c_ebpf env opts.target opts.libbpf_dir).2) := by
  rcases he : build_rust_ebpf env opts.target with ⟨tr, o⟩
  rw [he] at h2
  simp only at h2
  subst h2
  simp [build_ebpf, h, he]

end BuildEbpf

namespace BuildEbpf

lemma compileLoop_all_success (env : Env) (sd op ip : String)
    (hcl : ∀ p, ∃ so se, env.clangOutput p = some (true, so, se)) :
    ∀ names, compileLoop env sd op ip names =
      ((names.filter (fun n => fileExt n == some "c")).map
        (fun n => Invocation.clang (clangExe env)
          (clangArgs env (sd ++ "/" ++ n)
            (op ++ "/" ++ setExtension n "o") ip)),
       Outcome.ok) := by
  intro names
  induction names with
  | nil => simp [compileLoop_nil]
  | cons name rest ih =>
      rcases h : fileExt name with _ | ext
      · rw [compileLoop_cons_none env sd op ip name rest h, ih]
        simp [h]
      · by_cases hc : ext = "c"
        · subst hc
          obtain ⟨so, se, hco⟩ := hcl (sd ++ "/" ++ name)
          have hcwc := cwc_ok env (sd ++ "/" ++ name)
            (op ++ "/" ++ setExtension name "o") ip so se hco
          rw [compileLoop_cons_c_ok env sd op ip name rest h (by rw [hcwc]), ih, hcwc]
          simp [h]
        · rw [compileLoop_cons_notc env sd op ip name ext rest h hc, ih]
          simp [h, hc]

lemma workspaceRootAccesses_pos (env : Env) :
    ∀ n, 1 ≤ n → workspaceRootAccesses env n =
      (List.replicate n env.workspaceRoot,
       ⟨some env.workspaceRoot, 1⟩) := by
  intro n
  induction n with
  | zero => intro h; omega
  | succ m ih =>
      intro _
      cases Nat.eq_zero_or_pos m with
      | inl h0 =>
          subst h0
          rfl
      | inr hpos =>
          show (let (vs, s) := workspaceRootAccesses env m
                let (v, s2) := workspaceRootAccess env s
                (vs ++ [v], s2)) = _
          rw [ih hpos]
          simp [workspaceRootAccess, List.replicate_succ']

end BuildEbpf

/-! ## Concrete environments used by witnesses -/

namespace BuildEbpf

/-- A fully successful external world with a mixed source directory. -/
def envOk : Env where
  workspaceRoot := "/ws"
  hostArch := "x86_64"
  clangEnvVar := none
  mkdirErr := none
  makeStatus := some true
  readDirOk := true
  dirEntries := ["drop.c", "README.md", "two.ext.c", "lib.rs"]
  clangOutput := fun _ => some (true, "", "")
  rustStatus := some true

/-- A world where `fs::create_dir_all` fails. -/
def envMkdirFail : Env where
  workspaceRoot := "/ws"
  hostArch := "x86_64"
  clangEnvVar := none
  mkdirErr := some "permission denied"
  makeStatus := some true
  readDirOk := true
  dirEntries := ["drop.c"]
  clangOutput := fun _ => some (true, "", "")
  rustStatus := some true

/-- A world where `make … install_headers` exits non-zero. -/
def envMakeFail : Env where
  workspaceRoot := "/ws"
  hostArch := "x86_64"
  clangEnvVar := none
  mkdirErr := none
  makeStatus := some false
  readDirOk := true
  dirEntries := ["drop.c"]
  clangOutput := fun _ => some (true, "", "")
  rustStatus := some true

end BuildEbpf

/-! ## Claim theorems -/

namespace BuildEbpf

/-- C5: for each of the two supported canonical target strings, parsing it
to an `Architecture` and formatting the result returns the original string
exactly (round-trip law of the target enumeration). -/
theorem C5_target_roundtrip (s : String)
    (h : s = "bpfel-unknown-none" ∨ s = "bpfeb-unknown-none") :
    ∃ a : Architecture, Architecture.from_str s = Except.ok a ∧
      a.toTargetString = s := by
  rcases h with h | h <;> subst h
  · exact ⟨Architecture.BpfEl, rfl, rfl⟩
  · exact ⟨Architecture.BpfEb, by simp [Architecture.from_str], rfl⟩

/-- Witness for C5, at the big-endian triple. -/
theorem C5_target_roundtrip_witness :
    ∃ a : Architecture,
      Architecture.from_str "bpfeb-unknown-none" = Except.ok a ∧
      a.toTargetString = "bpfeb-unknown-none" :=
  C5_target_roundtrip "bpfeb-unknown-none" (Or.inr rfl)

/-- C6: every string other than the two supported canonical target strings
fails to parse, with the descriptive error `invalid target`; no default
`Architecture` is ever substituted. -/
theorem C6_invalid_target_rejected (s : String)
    (h1 : s ≠ "bpfel-unknown-none") (h2 : s ≠ "bpfeb-unknown-none") :
    Architecture.from_str s = Except.error "invalid target" := by
  simp [Architecture.from_str, h1, h2]

/-- Witness for C6, at the unsupported string `x86_64`. -/
theorem C6_invalid_target_rejected_witness :
    Architecture.from_str "x86_64" = Except.error "invalid target" :=
  C6_invalid_target_rejected "x86_64" (by decide) (by decide)

/-- C7: the host-architecture-to-macro translation is exact: `x86_64`
yields `x86`, `aarch64` yields `arm64`, and every other name passes
through unchanged. -/
theorem C7_arch_macro_exact (a : String)
    (h1 : a ≠ "x86_64") (h2 : a ≠ "aarch64") :
    archMacro "x86_64" = "x86" ∧ archMacro "aarch64" = "arm64" ∧
    archMacro a = a := by
  refine ⟨rfl, by simp [archMacro], ?_⟩
  simp [archMacro, h1, h2]

/-- Witness for C7, at the pass-through name `riscv64`. -/
theorem C7_arch_macro_exact_witness :
    archMacro "x86_64" = "x86" ∧ archMacro "aarch64" = "arm64" ∧
    archMacro "riscv64" = "riscv64" :=
  C7_arch_macro_exact "riscv64" (by decide) (by decide)

/-- C9: when the workspace root is dereferenced `n ≥ 2` times in one
process lifetime, the underlying `cargo metadata` query runs exactly once,
every access returns the same cached string, and the cached cell is never
mutated after the first computation (the state after any `k ≥ 1` accesses
equals the final state). -/
theorem C9_workspace_root_cached (env : Env) (n : Nat) (h : 2 ≤ n) :
    (workspaceRootAccesses env n).2.metadataCalls = 1 ∧
    (workspaceRootAccesses env n).1 = List.replicate n env.workspaceRoot ∧
    (workspaceRootAccesses env n).2.cache = some env.workspaceRoot ∧
    ∀ k, 1 ≤ k → (workspaceRootAccesses env k).2 =
      (workspaceRootAccesses env n).2 := by
  have hn := workspaceRootAccesses_pos env n (by omega)
  rw [hn]
  refine ⟨rfl, rfl, rfl, ?_⟩
  intro k hk
  rw [workspaceRootAccesses_pos env k hk]

/-- Witness for C9: three accesses in the fully successful world. -/
theorem C9_workspace_root_cached_witness :
    (workspaceRootAccesses envOk 3).2.metadataCalls = 1 ∧
    (workspaceRootAccesses envOk 3).1 = ["/ws", "/ws", "/ws"] := by
  obtain ⟨h1, h2, -, -⟩ := C9_workspace_root_cached envOk 3 (by omega)
  exact ⟨h1, by rw [h2]; rfl⟩

/-- C10: two `Options` values that differ only in the `release` flag make
`build_ebpf` produce exactly the same invocations and the same outcome —
the flag is read by no operation (the Rust build always passes
`--release`; the C object directory is always the release directory). -/
theorem C10_release_flag_unread (env : Env) (o1 o2 : Options)
    (ht : o1.target = o2.target)
    (hc : o1.compile_rust_ebpf = o2.compile_rust_ebpf)
    (hl : o1.libbpf_dir = o2.libbpf_dir) :
    build_ebpf env o1 = build_ebpf env o2 := by
  simp only [build_ebpf, ht, hc, hl]

/-- Witness for C10: flipping only `release` in the successful world. -/
theorem C10_release_flag_unread_witness :
    build_ebpf envOk ⟨Architecture.BpfEl, false, true, "/libbpf"⟩ =
    build_ebpf envOk ⟨Architecture.BpfEl, true, true, "/libbpf"⟩ :=
  C10_release_flag_unread envOk _ _ rfl rfl rfl

end BuildEbpf

namespace BuildEbpf

/-- C4 counterexample: when directory creation fails, `get_libbpf_headers`
does NOT abort the process — `fs::create_dir_all(dir)?` propagates a
recoverable error, so the claim that both failure modes are fatal is
false. -/
theorem C4_counterexample :
    (get_libbpf_headers envMkdirFail "/libbpf" "/inc").2 =
      Outcome.err "permission denied" ∧
    (get_libbpf_headers envMkdirFail "/libbpf" "/inc").2.isPanic = false :=
  ⟨rfl, rfl⟩

/-- C4 (amended): the Header Materializer aborts fatally when the external
install step exits non-zero or fails to spawn, but a failure to create the
include directory is propagated as a recoverable error, not a fatal
abort. -/
theorem C4_fatal_only_on_install (env : Env) (l ip msg : String) :
    (env.mkdirErr = none → env.makeStatus = some false →
      (get_libbpf_headers env l ip).2.isPanic = true) ∧
    (env.mkdirErr = none → env.makeStatus = none →
      (get_libbpf_headers env l ip).2.isPanic = true) ∧
    (env.mkdirErr = some msg →
      (get_libbpf_headers env l ip).2 = Outcome.err msg ∧
      (get_libbpf_headers env l ip).2.isPanic = false) := by
  refine ⟨?_, ?_, ?_⟩
  · intro h1 h2
    rw [glh_exit_fail env l ip h1 h2]
    rfl
  · intro h1 h2
    rw [glh_spawn_fail env l ip h1 h2]
    rfl
  · intro h
    rw [glh_mkdir_fail env l ip msg h]
    exact ⟨rfl, rfl⟩

/-- Witness for the amended C4: a failing install step panics while a
failing directory creation yields a recoverable error. -/
theorem C4_fatal_only_on_install_witness :
    (get_libbpf_headers envMakeFail "/libbpf" "/inc").2.isPanic = true ∧
    (get_libbpf_headers envMkdirFail "/libbpf" "/inc").2.isPanic = false :=
  ⟨(C4_fatal_only_on_install envMakeFail "/libbpf" "/inc" "x").1 rfl rfl,
   ((C4_fatal_only_on_install envMkdirFail "/libbpf" "/inc"
      "permission denied").2.2 rfl).2⟩

end BuildEbpf

namespace BuildEbpf

/-- C1: when header installation succeeds and every compiler run succeeds,
the C stage performs exactly one clang invocation per directory entry whose
extension is exactly `c`, in directory order, each invocation naming an
output formed from the entry's base name with its extension replaced by
`o` inside the target/profile output directory; entries with other
extensions (or none) cause no invocation. -/
theorem C1_one_clang_invocation_per_c_file (env : Env) (t : Architecture)
    (l : String)
    (hmk : env.mkdirErr = none) (hms : env.makeStatus = some true)
    (hrd : env.readDirOk = true)
    (hcl : ∀ p, ∃ so se, env.clangOutput p = some (true, so, se)) :
    (build_c_ebpf env t l).1 =
      Invocation.makeInstall (l ++ "/src")
        ["INCLUDEDIR=" ++ includePathOf env t, "install_headers"] ::
      (env.dirEntries.filter (fun n => fileExt n == some "c")).map
        (fun n => Invocation.clang (clangExe env)
          (clangArgs env (cSrcDir env ++ "/" ++ n)
            (outPathOf env t ++ "/" ++ setExtension n "o")
            (includePathOf env t))) ∧
    (build_c_ebpf env t l).2 = Outcome.ok ∧
    ((build_c_ebpf env t l).1.filter Invocation.isClang).length =
      (env.dirEntries.filter (fun n => fileExt n == some "c")).length := by
  have hglh := glh_ok env l (includePathOf env t) hmk hms
  have h2 : (get_libbpf_headers env l (includePathOf env t)).2 = Outcome.ok := by
    rw [hglh]
  have hb := build_c_headers_ok env t l h2 hrd
  have hloop := compileLoop_all_success env (cSrcDir env) (outPathOf env t)
    (includePathOf env t) hcl env.dirEntries
  rw [hb, hglh, hloop]
  refine ⟨rfl, rfl, ?_⟩
  simp [List.filter_cons, List.filter_map, Function.comp, Invocation.isClang]

/-- Witness for C1: in the successful world with entries
`drop.c, README.md, two.ext.c, lib.rs`, exactly the two `.c` entries are
compiled, with outputs `drop.o` and `two.ext.o`. -/
theorem C1_one_clang_invocation_per_c_file_witness :
    (build_c_ebpf envOk Architecture.BpfEl "/libbpf").1 =
      [Invocation.makeInstall "/libbpf/src"
        ["INCLUDEDIR=/ws/target/bpfel-unknown-none/release/include",
         "install_headers"],
       Invocation.clang "/usr/bin/clang"
        ["-I/ws/target/bpfel-unknown-none/release/include", "-g", "-O2",
         "-target", "bpf", "-c", "-D__TARGET_ARCH_x86",
         "/ws/bpfd-ebpf/src/bpf/drop.c", "-o",
         "/ws/target/bpfel-unknown-none/release/drop.o"],
       Invocation.clang "/usr/bin/clang"
        ["-I/ws/target/bpfel-unknown-none/release/include", "-g", "-O2",
         "-target", "bpf", "-c", "-D__TARGET_ARCH_x86",
         "/ws/bpfd-ebpf/src/bpf/two.ext.c", "-o",
         "/ws/target/bpfel-unknown-none/release/two.ext.o"]] ∧
    (build_c_ebpf envOk Architecture.BpfEl "/libbpf").2 = Outcome.ok := by
  have h := C1_one_clang_invocation_per_c_file envOk Architecture.BpfEl
    "/libbpf" rfl rfl rfl (fun p => ⟨"", "", rfl⟩)
  exact ⟨by rw [h.1]; rfl, h.2.1⟩

end BuildEbpf

namespace BuildEbpf

lemma rust_trace_exact (env : Env) (t : Architecture) :
    ∀ i ∈ (build_rust_ebpf env t).1,
      i = Invocation.cargoBuild (env.workspaceRoot ++ "/bpfd-ebpf")
        ["+nightly", "build", "--verbose", "--release",
         "--target=" ++ t.toTargetString, "-Z", "build-std=core"] := by
  intro i hi
  unfold build_rust_ebpf at hi
  rcases h : env.rustStatus with _ | succ <;> rw [h] at hi
  · simp at hi
  · cases succ <;> simp at hi <;> exact hi

lemma build_ebpf_trace_mem (env : Env) (opts : Options) :
    ∀ i ∈ (build_ebpf env opts).1,
      i ∈ (build_rust_ebpf env opts.target).1 ∨
      i ∈ (build_c_ebpf env opts.target opts.libbpf_dir).1 := by
  intro i hi
  cases hflag : opts.compile_rust_ebpf with
  | false =>
      rw [build_ebpf_no_rust env opts hflag] at hi
      exact Or.inr hi
  | true =>
      by_cases ho : (build_rust_ebpf env opts.target).2 = Outcome.ok
      · rw [build_ebpf_rust_ok env opts hflag ho] at hi
        simp only [List.mem_append] at hi
        exact hi
      · rw [build_ebpf_rust_fail env opts hflag ho] at hi
        exact Or.inl hi

/-- C2: the Rust eBPF builder is invoked iff the `compile_rust_ebpf` flag
is set; when set, it runs first and a failing Rust build short-circuits
(the header-install / C-compile pipeline does not run); when absent, no
`cargo build` invocation ever occurs and the C pipeline still runs. -/
theorem C2_rust_flag_gates_builder (env : Env) (opts : Options) :
    (opts.compile_rust_ebpf = false →
      build_ebpf env opts = build_c_ebpf env opts.target opts.libbpf_dir ∧
      ∀ i ∈ (build_ebpf env opts).1, i.isCargoBuild = false) ∧
    (opts.compile_rust_ebpf = true →
      ((build_rust_ebpf env opts.target).2 ≠ Outcome.ok →
        build_ebpf env opts = build_rust_ebpf env opts.target ∧
        ∀ i ∈ (build_ebpf env opts).1, i.isClang = false) ∧
      ((build_rust_ebpf env opts.target).2 = Outcome.ok →
        (build_ebpf env opts).1 =
          (build_rust_ebpf env opts.target).1 ++
          (build_c_ebpf env opts.target opts.libbpf_dir).1 ∧
        (build_ebpf env opts).2 =
          (build_c_ebpf env opts.target opts.libbpf_dir).2)) := by
  constructor
  · intro hflag
    have heq := build_ebpf_no_rust env opts hflag
    refine ⟨heq, ?_⟩
    intro i hi
    rw [heq] at hi
    rcases build_c_trace_mem env opts.target opts.libbpf_dir i hi with
      ⟨d, a, h⟩ | ⟨s, o, h⟩ <;> subst h <;> rfl
  · intro hflag
    constructor
    · intro ho
      have heq := build_ebpf_rust_fail env opts hflag ho
      refine ⟨heq, ?_⟩
      intro i hi
      rw [heq] at hi
      have := rust_trace_exact env opts.target i hi
      subst this
      rfl
    · intro ho
      have heq := build_ebpf_rust_ok env opts hflag ho
      rw [heq]
      exact ⟨rfl, rfl⟩

/-- Witness for C2: with the flag absent, the whole build is exactly the
C pipeline. -/
theorem C2_rust_flag_gates_builder_witness :
    build_ebpf envOk ⟨Architecture.BpfEl, false, false, "/libbpf"⟩ =
      build_c_ebpf envOk Architecture.BpfEl "/libbpf" :=
  ((C2_rust_flag_gates_builder envOk
    ⟨Architecture.BpfEl, false, false, "/libbpf"⟩).1 rfl).1

/-- C3: in every execution of the C pipeline, the header-materialization
step precedes every C compiler invocation (the trace is the header trace
followed by clang-only invocations), and when header materialization does
not succeed — non-zero install exit, install spawn failure, or directory
creation error — no clang invocation occurs at all. -/
theorem C3_headers_precede_compilation (env : Env) (t : Architecture)
    (l : String) :
    (∃ rest, (build_c_ebpf env t l).1 =
        (get_libbpf_headers env l (includePathOf env t)).1 ++ rest ∧
      ∀ i ∈ rest, i.isClang = true) ∧
    ((get_libbpf_headers env l (includePathOf env t)).2 ≠ Outcome.ok →
      ∀ i ∈ (build_c_ebpf env t l).1, i.isClang = false) := by
  by_cases h : (get_libbpf_headers env l (includePathOf env t)).2 = Outcome.ok
  · constructor
    · cases hr : env.readDirOk with
      | true =>
          refine ⟨(compileLoop env (cSrcDir env) (outPathOf env t)
            (includePathOf env t) env.dirEntries).1,
            (congrArg Prod.fst (build_c_headers_ok env t l h hr)), ?_⟩
          intro i hi
          obtain ⟨s, o, hio⟩ := compileLoop_trace_clang env (cSrcDir env)
            (outPathOf env t) (includePathOf env t) env.dirEntries i hi
          subst hio
          rfl
      | false =>
          refine ⟨[], ?_, by intro i hi; simp at hi⟩
          rw [build_c_readdir_fail env t l h hr]
          simp
    · intro habs
      exact absurd h habs
  · constructor
    · refine ⟨[], ?_, by intro i hi; simp at hi⟩
      rw [build_c_headers_fail env t l h]
      simp
    · intro _ i hi
      rw [build_c_headers_fail env t l h] at hi
      obtain ⟨d, a, hio⟩ := glh_trace_make env l (includePathOf env t) i hi
      subst hio
      rfl

/-- Witness for C3: with a failing `make install_headers`, the C pipeline
performs no clang invocation. -/
theorem C3_headers_precede_compilation_witness :
    ((build_c_ebpf envMakeFail Architecture.BpfEl "/libbpf").1.filter
      Invocation.isClang) = [] := by
  have h := (C3_headers_precede_compilation envMakeFail Architecture.BpfEl
    "/libbpf").2 (by decide)
  rw [List.filter_eq_nil_iff]
  intro a ha
  simp [h a ha]

end BuildEbpf

namespace BuildEbpf

/-- C8: every clang invocation performed by the build passes the fixed
generic BPF backend as its target machine (the argument following
`-target` is `bpf`, never the selected endianness triple), while the
selected endianness triple appears as the Rust builder's `--target=`
argument. -/
theorem C8_clang_targets_generic_bpf (env : Env) (opts : Options) :
    (∀ e a, Invocation.clang e a ∈ (build_ebpf env opts).1 →
      a.get? 3 = some "-target" ∧ a.get? 4 = some "bpf" ∧
      a.get? 4 ≠ some opts.target.toTargetString) ∧
    (∀ d a, Invocation.cargoBuild d a ∈ (build_ebpf env opts).1 →
      ("--target=" ++ opts.target.toTargetString) ∈ a) := by
  constructor
  · intro e a ha
    rcases build_ebpf_trace_mem env opts _ ha with h | h
    · have := rust_trace_exact env opts.target _ h
      simp at this
    · rcases build_c_trace_mem env opts.target opts.libbpf_dir _ h with
        ⟨d, a2, habs⟩ | ⟨s, o, heq⟩
      · simp at habs
      · injection heq with h1 h2
        subst h2
        refine ⟨rfl, rfl, ?_⟩
        show some "bpf" ≠ some opts.target.toTargetString
        cases opts.target <;> decide
  · intro d a ha
    rcases build_ebpf_trace_mem env opts _ ha with h | h
    · have := rust_trace_exact env opts.target _ h
      injection this with h1 h2
      subst h2
      simp
    · rcases build_c_trace_mem env opts.target opts.libbpf_dir _ h with
        ⟨d2, a2, habs⟩ | ⟨s, o, habs⟩ <;> simp at habs

/-- Witness for C8: the clang invocation compiling `drop.c` for the
big-endian target still targets `bpf`, not the selected triple. -/
theorem C8_clang_targets_generic_bpf_witness :
    (clangArgs envOk "/ws/bpfd-ebpf/src/bpf/drop.c"
      "/ws/target/bpfeb-unknown-none/release/drop.o"
      "/ws/target/bpfeb-unknown-none/release/include").get? 3 =
        some "-target" ∧
    (clangArgs envOk "/ws/bpfd-ebpf/src/bpf/drop.c"
      "/ws/target/bpfeb-unknown-none/release/drop.o"
      "/ws/target/bpfeb-unknown-none/release/include").get? 4 =
        some "bpf" ∧
    (clangArgs envOk "/ws/bpfd-ebpf/src/bpf/drop.c"
      "/ws/target/bpfeb-unknown-none/release/drop.o"
      "/ws/target/bpfeb-unknown-none/release/include").get? 4 ≠
        some (Architecture.BpfEb.toTargetString) := by
  have hmem : Invocation.clang (clangExe envOk)
      (clangArgs envOk "/ws/bpfd-ebpf/src/bpf/drop.c"
        "/ws/target/bpfeb-unknown-none/release/drop.o"
        "/ws/target/bpfeb-unknown-none/release/include")
      ∈ (build_ebpf envOk
          ⟨Architecture.BpfEb, false, true, "/libbpf"⟩).1 := by
    decide
  exact (C8_clang_targets_generic_bpf envOk
    ⟨Architecture.BpfEb, false, true, "/libbpf"⟩).1 _ _ hmem

end BuildEbpf
